import Mathlib

/-!
Shallow embedding of the reservation-pricing and booking-submission logic of
the `reservas-hotel-agile` hotel-booking front end (the `BookRoom` page).

Monetary amounts and JS numbers are modelled as rationals; a JS `NaN`
produced by date arithmetic is modelled as `none` in an `Option ℚ` result.
Date form fields are modelled by whether they are empty, parse to a
millisecond timestamp, or are non-empty but unparseable (JS `Invalid Date`).
-/

namespace Reservas

/-- A room row as fetched from the `rooms` table. -/
structure Room where
  id : String
  name : String
  roomType : String
  price_per_night : ℚ
  description : String
  capacity : ℕ
  deriving DecidableEq

/-- An additional-service row as fetched from `additional_services` (active ones). -/
structure AdditionalService where
  id : String
  name : String
  description : String
  price : ℚ
  icon : String
  deriving DecidableEq

/-- A date form field: empty string, a string parsing to a UTC millisecond
timestamp, or a non-empty string `new Date` cannot parse (Invalid Date). -/
inductive DateField where
  | empty : DateField
  | valid : ℤ → DateField
  | invalid : String → DateField
  deriving DecidableEq

/-- JS truthiness of the field as a string: only the empty string is falsy. -/
def DateField.present : DateField → Bool
  | .empty => false
  | .valid _ => true
  | .invalid _ => true

/-- `new Date(s).getTime()`: `none` models `NaN` (Invalid Date). -/
def DateField.getTime : DateField → Option ℤ
  | .empty => none
  | .valid ms => some ms
  | .invalid _ => none

/-- The `formData` UI state of the booking page. -/
structure FormData where
  checkIn : DateField
  checkOut : DateField
  guests : ℚ
  specialRequests : String
  deriving DecidableEq

/-- Milliseconds per day, `1000 * 60 * 60 * 24` from the source. -/
def msPerDay : ℤ := 1000 * 60 * 60 * 24

/-- `Math.ceil((checkOut.getTime() - checkIn.getTime()) / (1000*60*60*24))`
for two valid timestamps: the ceiling of the exact quotient, written as
`-((-x) / d)` with integer floor division (the divisor is positive, so `/`
on `ℤ` rounds down; `nightsBetween_eq_ceil` below shows this is the
ceiling). -/
def nightsBetween (tIn tOut : ℤ) : ℤ := -((-(tOut - tIn)) / msPerDay)

/-- `services.find(s => s.id === serviceId)`. -/
def findService (services : List AdditionalService) (serviceId : String) :
    Option AdditionalService :=
  services.find? (fun s => s.id == serviceId)

/-- `calculateTotal` from the source: returns `some 0` when the room is
missing or either date field is empty; with both fields non-empty,
parses them, takes the ceiling of the day difference, multiplies by the
nightly rate and folds the selected services over the active list, adding
the price of each one that is found.  `none` models the `NaN` that JS
arithmetic produces when a non-empty date string fails to parse. -/
def calculateTotal (room : Option Room) (formData : FormData)
    (selectedServices : List String) (services : List AdditionalService) :
    Option ℚ :=
  match room with
  | none => some 0
  | some r =>
    if formData.checkIn.present && formData.checkOut.present then
      match formData.checkIn.getTime, formData.checkOut.getTime with
      | some tIn, some tOut =>
        some (selectedServices.foldl
          (fun total serviceId =>
            match findService services serviceId with
            | some service => total + service.price
            | none => total)
          ((nightsBetween tIn tOut : ℚ) * r.price_per_night))
      | _, _ => none
    else
      some 0

/-- `handleServiceToggle`: remove the id if present, otherwise append it. -/
def handleServiceToggle (serviceId : String) (prev : List String) :
    List String :=
  if prev.contains serviceId then
    prev.filter (fun id => id != serviceId)
  else
    prev ++ [serviceId]

/-- One issue of the zod `bookingSchema`, with its path and message. -/
structure ZodIssue where
  path : String
  message : String
  deriving DecidableEq

/-- The issues `bookingSchema.parse` collects, in schema key order:
`checkIn: z.string().min(1)`, `checkOut: z.string().min(1)`,
`guests: z.number().min(1)`. -/
def bookingSchemaIssues (checkIn checkOut : DateField) (guests : ℚ) :
    List ZodIssue :=
  (if checkIn.present then [] else
    [⟨"checkIn", "Selecciona fecha de entrada"⟩]) ++
  (if checkOut.present then [] else
    [⟨"checkOut", "Selecciona fecha de salida"⟩]) ++
  (if guests < 1 then [⟨"guests", "Debe haber al menos 1 huésped"⟩] else [])

/-- JS `checkOut <= checkIn` on `Date` objects: numeric comparison of the
timestamps, false whenever either side is `NaN`. -/
def jsDateLe : Option ℤ → Option ℤ → Bool
  | some a, some b => a ≤ b
  | _, _ => false

/-- The row passed to `supabase.from('bookings').insert(...)`. -/
structure BookingInsertRow where
  user_id : String
  room_id : String
  check_in : DateField
  check_out : DateField
  guests : ℚ
  total_amount : Option ℚ
  special_requests : String
  status : String
  deriving DecidableEq

/-- One row passed to `supabase.from('booking_services').insert(...)`. -/
structure BookingServiceRow where
  booking_id : String
  service_id : String
  quantity : ℕ
  deriving DecidableEq

/-- The user-visible outcome of `handleSubmit`: the session toast, the first
zod issue, the date-order toast, a remote error toast, or success (with
navigation to `/payment/bookingId`). -/
inductive Outcome where
  | sessionError : Outcome
  | validationError : ZodIssue → Outcome
  | dateOrderError : Outcome
  | remoteError : String → Outcome
  | success : String → Outcome
  deriving DecidableEq

/-- What one run of `handleSubmit` did to the store: the booking rows now
persisted, the batch of service rows passed to the link insert (`none` if
that insert was never called), the link rows now persisted, and the
user-visible outcome. -/
structure SubmitTrace where
  bookings : List BookingInsertRow
  linkAttempt : Option (List BookingServiceRow)
  links : List BookingServiceRow
  outcome : Outcome
  deriving DecidableEq

/-- `handleSubmit` from the source.  The two remote inserts are modelled by
the responses the store would give: `bookingRes` is the result of the
booking insert (`ok` carries the new row's id as returned by
`.select().single()`), `servicesRes` the result of the link insert.  A
failing insert persists nothing from its own request; there is no delete
anywhere in the flow. -/
def handleSubmit (user : Option String) (room : Option Room)
    (formData : FormData) (selectedServices : List String)
    (services : List AdditionalService)
    (bookingRes : Except String String) (servicesRes : Except String Unit) :
    SubmitTrace :=
  match user, room with
  | none, _ => ⟨[], none, [], .sessionError⟩
  | some _, none => ⟨[], none, [], .sessionError⟩
  | some userId, some r =>
    match bookingSchemaIssues formData.checkIn formData.checkOut
        formData.guests with
    | issue :: _ => ⟨[], none, [], .validationError issue⟩
    | [] =>
      if jsDateLe formData.checkOut.getTime formData.checkIn.getTime then
        ⟨[], none, [], .dateOrderError⟩
      else
        let total := calculateTotal (some r) formData selectedServices services
        let row : BookingInsertRow :=
          ⟨userId, r.id, formData.checkIn, formData.checkOut, formData.guests,
            total, formData.specialRequests, "pendiente"⟩
        match bookingRes with
        | .error msg => ⟨[], none, [], .remoteError msg⟩
        | .ok bookingId =>
          if selectedServices.length > 0 then
            let serviceRecords := selectedServices.map
              (fun serviceId =>
                (⟨bookingId, serviceId, 1⟩ : BookingServiceRow))
            match servicesRes with
            | .error msg => ⟨[row], some serviceRecords, [], .remoteError msg⟩
            | .ok _ =>
              ⟨[row], some serviceRecords, serviceRecords, .success bookingId⟩
          else
            ⟨[row], none, [], .success bookingId⟩

/-- Price a selected id contributes: the price of the first matching active
service, `0` if none matches. -/
def lookupPrice (services : List AdditionalService) (serviceId : String) : ℚ :=
  match findService services serviceId with
  | some s => s.price
  | none => 0

/-- For a positive divisor, `⌈a / d⌉ = -((-a) / d)` with `/` on `ℤ`. -/
theorem ceil_div_eq_neg_ediv (a d : ℤ) (hd : 0 < d) :
    ⌈((a : ℚ) / (d : ℚ))⌉ = -((-a) / d) := by
  have hdq : ((d.toNat : ℕ) : ℚ) = (d : ℚ) := by
    exact_mod_cast congrArg (fun n : ℤ => (n : ℚ)) (Int.toNat_of_nonneg hd.le)
  have h2 : ⌊(((-a : ℤ) : ℚ)) / (d : ℚ)⌋ = (-a) / d := by
    rw [← hdq, Rat.floor_intCast_div_natCast, Int.toNat_of_nonneg hd.le]
  rw [← h2, Int.cast_neg, neg_div, Int.floor_neg, neg_neg]

/-- The night count computed by the code is the ceiling of the timestamp
difference divided by the milliseconds in a day. -/
theorem nightsBetween_eq_ceil (tIn tOut : ℤ) :
    nightsBetween tIn tOut = ⌈((tOut - tIn : ℚ) / (msPerDay : ℚ))⌉ := by
  have h := ceil_div_eq_neg_ediv (tOut - tIn) msPerDay (by decide)
  push_cast at h
  simp only [nightsBetween]
  rw [h]

end Reservas

namespace Reservas

/-- Folding the selected services over the active list adds exactly the sum
of the looked-up prices to the initial value. -/
theorem foldl_services_eq (services : List AdditionalService)
    (sel : List String) (init : ℚ) :
    sel.foldl
      (fun total serviceId =>
        match findService services serviceId with
        | some service => total + service.price
        | none => total) init
      = init + (sel.map (lookupPrice services)).sum := by
  induction sel generalizing init with
  | nil => simp
  | cons id rest ih =>
    simp only [List.foldl_cons, List.map_cons, List.sum_cons]
    rw [ih]
    cases h : findService services id with
    | none => simp [lookupPrice, h]
    | some s =>
      simp only [lookupPrice, h]
      ring

/-- Evaluation of `calculateTotal` when the room is present and both dates
parse: nights times the rate plus the sum of the looked-up prices. -/
theorem calculateTotal_valid (r : Room) (tIn tOut : ℤ) (g : ℚ) (sr : String)
    (sel : List String) (services : List AdditionalService) :
    calculateTotal (some r) ⟨.valid tIn, .valid tOut, g, sr⟩ sel services
      = some ((nightsBetween tIn tOut : ℚ) * r.price_per_night
          + (sel.map (lookupPrice services)).sum) := by
  simp only [calculateTotal, DateField.present, DateField.getTime,
    Bool.and_self, if_true]
  rw [foldl_services_eq]

/-- Evaluation of `calculateTotal` when either date field is empty. -/
theorem calculateTotal_absent (room : Option Room) (fd : FormData)
    (sel : List String) (services : List AdditionalService)
    (h : fd.checkIn.present = false ∨ fd.checkOut.present = false) :
    calculateTotal room fd sel services = some 0 := by
  cases room with
  | none => rfl
  | some r =>
    simp only [calculateTotal]
    rcases h with h | h <;> simp [h]

/-- Each looked-up price is non-negative when every active service has a
non-negative price. -/
theorem lookupPrice_nonneg (services : List AdditionalService)
    (hpos : ∀ s ∈ services, 0 ≤ s.price) (serviceId : String) :
    0 ≤ lookupPrice services serviceId := by
  unfold lookupPrice
  cases h : findService services serviceId with
  | none => exact le_refl 0
  | some s => exact hpos s (List.mem_of_find?_eq_some h)

/-- The night count is non-negative when check-out is not before check-in. -/
theorem nightsBetween_nonneg (tIn tOut : ℤ) (h : tIn ≤ tOut) :
    0 ≤ nightsBetween tIn tOut := by
  rw [nightsBetween_eq_ceil]
  refine Int.ceil_nonneg (div_nonneg ?_ ?_)
  · exact_mod_cast sub_nonneg.mpr h
  · norm_num [msPerDay]

/-- A fixture room with a nightly rate of 100. -/
def roomA : Room := ⟨"r1", "Suite", "suite", 100, "", 2⟩

/-- A fixture active service priced 50. -/
def spaService : AdditionalService := ⟨"spa", "Spa", "", 50, ""⟩

/-- A fixture service priced 150 that is NOT in the fetched active list
(e.g. an inactive service whose id is still selectable). -/
def inactiveSpa : AdditionalService := ⟨"spa-premium", "Spa Premium", "", 150, ""⟩

/-- A form whose check-out (epoch) is one day before its check-in. -/
def fdReversed : FormData := ⟨.valid 86400000, .valid 0, 2, ""⟩

/-- C1: the claim says `calculateTotal` returns a non-negative total for
every input, including check-out earlier than check-in.  Counterexample:
nightly rate 100, check-in one day after check-out, no services — the night
count is -1 and the function returns -100, which is negative. -/
theorem C1_counterexample :
    calculateTotal (some roomA) fdReversed [] [] = some (-100)
    ∧ (-100 : ℚ) < 0 := by
  constructor
  · norm_num [calculateTotal, fdReversed, DateField.present,
      DateField.getTime, nightsBetween, msPerDay, roomA]
  · norm_num

/-- C1 (amended): with a non-negative nightly rate and non-negative service
prices, the total is non-negative whenever both dates are valid and
check-out is not earlier than check-in; and whenever either date field is
absent the total is 0. -/
theorem C1_total_nonneg (r : Room) (tIn tOut : ℤ) (g : ℚ) (sr : String)
    (sel : List String) (services : List AdditionalService)
    (hr : 0 ≤ r.price_per_night)
    (hs : ∀ s ∈ services, 0 ≤ s.price)
    (ht : tIn ≤ tOut) :
    (∃ t, calculateTotal (some r) ⟨.valid tIn, .valid tOut, g, sr⟩ sel services
        = some t ∧ 0 ≤ t)
    ∧ ∀ fd : FormData,
        (fd.checkIn.present = false ∨ fd.checkOut.present = false) →
        calculateTotal (some r) fd sel services = some 0 := by
  constructor
  · refine ⟨_, calculateTotal_valid r tIn tOut g sr sel services, ?_⟩
    have h1 : (0 : ℚ) ≤ (nightsBetween tIn tOut : ℚ) * r.price_per_night := by
      refine mul_nonneg ?_ hr
      exact_mod_cast nightsBetween_nonneg tIn tOut ht
    have h2 : (0 : ℚ) ≤ (sel.map (lookupPrice services)).sum := by
      refine List.sum_nonneg ?_
      intro x hx
      obtain ⟨serviceId, _, rfl⟩ := List.mem_map.mp hx
      exact lookupPrice_nonneg services hs serviceId
    linarith
  · intro fd h
    exact calculateTotal_absent (some r) fd sel services h

/-- Witness for C1 at a concrete input: one night at rate 100, no
services — the total exists and is non-negative. -/
theorem C1_witness :
    ∃ t, calculateTotal (some roomA) ⟨.valid 0, .valid 86400000, 2, ""⟩ [] []
      = some t ∧ 0 ≤ t :=
  (C1_total_nonneg roomA 0 86400000 2 "" [] []
    (by norm_num [roomA]) (by simp) (by norm_num)).1

/-- C2: the claim says an absent OR invalid date makes the calculator
return 0.  Counterexample: a non-empty unparseable check-in string passes
the emptiness guard, `new Date` yields Invalid Date, and the NaN
propagates — the result is the NaN value (`none`), not 0. -/
theorem C2_counterexample :
    calculateTotal (some roomA) ⟨.invalid "mañana", .valid 0, 2, ""⟩ [] []
      = none
    ∧ calculateTotal (some roomA) ⟨.invalid "mañana", .valid 0, 2, ""⟩ [] []
      ≠ some 0 := by
  constructor
  · norm_num [calculateTotal, DateField.present, DateField.getTime]
  · simp [calculateTotal, DateField.present, DateField.getTime]

/-- C2 (amended): when both dates parse, the night count is the ceiling of
the timestamp difference over a day in milliseconds; when either date is
absent (empty field) the calculator returns 0; but a present, unparseable
date yields the NaN value (`none`), not 0. -/
theorem C2_nights_and_absent (r : Room) (tIn tOut : ℤ) (g : ℚ) (sr : String)
    (sel : List String) (services : List AdditionalService) (s : String) :
    (calculateTotal (some r) ⟨.valid tIn, .valid tOut, g, sr⟩ sel services
      = some ((⌈((tOut - tIn : ℚ)) / (msPerDay : ℚ)⌉ : ℚ) * r.price_per_night
          + (sel.map (lookupPrice services)).sum))
    ∧ (∀ fd : FormData,
        (fd.checkIn.present = false ∨ fd.checkOut.present = false) →
        calculateTotal (some r) fd sel services = some 0)
    ∧ calculateTotal (some r) ⟨.invalid s, .valid tOut, g, sr⟩ sel services
      = none := by
  refine ⟨?_, ?_, ?_⟩
  · rw [calculateTotal_valid, ← nightsBetween_eq_ceil]
  · intro fd h
    exact calculateTotal_absent (some r) fd sel services h
  · norm_num [calculateTotal, DateField.present, DateField.getTime]

/-- Witness for C2 at concrete inputs: one valid night evaluates to the
ceiling formula, and an empty check-in gives 0. -/
theorem C2_witness :
    calculateTotal (some roomA) ⟨.valid 0, .valid 86400000, 2, ""⟩ [] []
      = some ((⌈((86400000 - 0 : ℚ)) / (msPerDay : ℚ)⌉ : ℚ)
          * roomA.price_per_night
          + (([] : List String).map (lookupPrice [])).sum)
    ∧ calculateTotal (some roomA) ⟨.empty, .valid 86400000, 2, ""⟩ [] []
      = some 0 :=
  ⟨(C2_nights_and_absent roomA 0 86400000 2 "" [] [] "x").1,
   (C2_nights_and_absent roomA 0 86400000 2 "" [] [] "x").2.1
     ⟨.empty, .valid 86400000, 2, ""⟩ (Or.inl rfl)⟩

/-- C3: for valid dates with check-out strictly after check-in and a
duplicate-free selection whose every id is found among the active services,
the total equals nights times the nightly rate plus the sum of the selected
services' prices, each counted once. -/
theorem C3_total_formula (r : Room) (tIn tOut : ℤ) (g : ℚ) (sr : String)
    (sel : List String) (services : List AdditionalService)
    (pr : String → ℚ)
    (hd : tIn < tOut)
    (hnodup : sel.Nodup)
    (hfound : ∀ serviceId ∈ sel,
      ∃ s, findService services serviceId = some s ∧ s.price = pr serviceId) :
    calculateTotal (some r) ⟨.valid tIn, .valid tOut, g, sr⟩ sel services
      = some ((nightsBetween tIn tOut : ℚ) * r.price_per_night
          + (sel.map pr).sum) := by
  rw [calculateTotal_valid]
  have hmap : sel.map (lookupPrice services) = sel.map pr := by
    refine List.map_congr_left ?_
    intro serviceId hmem
    obtain ⟨s, hfind, hprice⟩ := hfound serviceId hmem
    simp [lookupPrice, hfind, hprice]
  rw [hmap]

/-- Witness for C3: the spec's own example — two nights at 100 plus one
50-priced service is 250. -/
theorem C3_witness :
    calculateTotal (some roomA) ⟨.valid 0, .valid (2 * msPerDay), 2, ""⟩
      ["spa"] [spaService] = some 250 := by
  have h := C3_total_formula roomA 0 (2 * msPerDay) 2 "" ["spa"] [spaService]
    (fun _ => 50) (by norm_num [msPerDay]) (by simp)
    (by
      intro serviceId hmem
      simp only [List.mem_singleton] at hmem
      subst hmem
      exact ⟨spaService, by simp [findService, spaService], rfl⟩)
  rw [h]
  norm_num [nightsBetween, msPerDay, roomA]

/-- C4: a submission whose parsed check-out is at or before its parsed
check-in is rejected: whatever the session, room and store responses, no
booking row is persisted, the link insert is never attempted, and the
outcome is not success. -/
theorem C4_reject_no_write (user : Option String) (room : Option Room)
    (fd : FormData) (sel : List String) (services : List AdditionalService)
    (bookingRes : Except String String) (servicesRes : Except String Unit)
    (tIn tOut : ℤ)
    (hin : fd.checkIn = .valid tIn) (hout : fd.checkOut = .valid tOut)
    (hle : tOut ≤ tIn) :
    (handleSubmit user room fd sel services bookingRes servicesRes).bookings
      = []
    ∧ (handleSubmit user room fd sel services bookingRes servicesRes).linkAttempt
      = none
    ∧ (handleSubmit user room fd sel services bookingRes servicesRes).links
      = []
    ∧ ∀ bid, (handleSubmit user room fd sel services bookingRes
        servicesRes).outcome ≠ .success bid := by
  cases user with
  | none => simp [handleSubmit]
  | some u =>
    cases room with
    | none => simp [handleSubmit]
    | some r =>
      by_cases hg : fd.guests < 1
      · simp [handleSubmit, bookingSchemaIssues, hin, hout, hg,
          DateField.present]
      · simp [handleSubmit, bookingSchemaIssues, hin, hout, hg,
          DateField.present, jsDateLe, DateField.getTime, hle]

/-- Witness for C4 at a concrete input: reversed dates, healthy store —
nothing is written and the outcome is not success. -/
theorem C4_witness :
    (handleSubmit (some "u") (some roomA) fdReversed ["spa"] [spaService]
      (.ok "b1") (.ok ())).bookings = []
    ∧ (handleSubmit (some "u") (some roomA) fdReversed ["spa"] [spaService]
        (.ok "b1") (.ok ())).linkAttempt = none
    ∧ (handleSubmit (some "u") (some roomA) fdReversed ["spa"] [spaService]
        (.ok "b1") (.ok ())).links = []
    ∧ ∀ bid, (handleSubmit (some "u") (some roomA) fdReversed ["spa"]
        [spaService] (.ok "b1") (.ok ())).outcome ≠ .success bid :=
  C4_reject_no_write (some "u") (some roomA) fdReversed ["spa"] [spaService]
    (.ok "b1") (.ok ()) 86400000 0 rfl rfl (by norm_num)

/-- C5: the claim orders the structural checks as (dates present, check-out
after check-in, guests ≥ 1) and says the FIRST offending one is reported.
Counterexample: both dates present but out of order AND guests = 0 — the
claim's ordering reports the date-order violation, yet the code's zod
schema (which does not contain the date-order check) fails first on the
guests field, and the date-order error is never raised. -/
theorem C5_counterexample :
    (handleSubmit (some "u") (some roomA) ⟨.valid 86400000, .valid 0, 0, ""⟩
      [] [] (.ok "b") (.ok ())).outcome
      = .validationError ⟨"guests", "Debe haber al menos 1 huésped"⟩
    ∧ (handleSubmit (some "u") (some roomA) ⟨.valid 86400000, .valid 0, 0, ""⟩
        [] [] (.ok "b") (.ok ())).outcome ≠ .dateOrderError := by
  have h1 : (handleSubmit (some "u") (some roomA)
      ⟨.valid 86400000, .valid 0, 0, ""⟩ [] [] (.ok "b") (.ok ())).outcome
      = .validationError ⟨"guests", "Debe haber al menos 1 huésped"⟩ := by
    norm_num [handleSubmit, bookingSchemaIssues, DateField.present]
  refine ⟨h1, ?_⟩
  rw [h1]
  simp

/-- C5 (amended): the schema checks, in order, check-in present, check-out
present, guests ≥ 1, and reports the first offending field; the date-order
check runs only after all three pass.  So a submission with both dates
present and guests below 1 fails with a `ValidationError` naming the
guests field, before the total is computed or anything is written. -/
theorem C5_guests_validation (user : String) (r : Room) (fd : FormData)
    (sel : List String) (services : List AdditionalService)
    (bookingRes : Except String String) (servicesRes : Except String Unit)
    (hin : fd.checkIn.present = true) (hout : fd.checkOut.present = true)
    (hg : fd.guests < 1) :
    (handleSubmit (some user) (some r) fd sel services bookingRes
        servicesRes).outcome
      = .validationError ⟨"guests", "Debe haber al menos 1 huésped"⟩
    ∧ (handleSubmit (some user) (some r) fd sel services bookingRes
        servicesRes).bookings = []
    ∧ (handleSubmit (some user) (some r) fd sel services bookingRes
        servicesRes).linkAttempt = none
    ∧ (handleSubmit (some user) (some r) fd sel services bookingRes
        servicesRes).links = [] := by
  simp [handleSubmit, bookingSchemaIssues, hin, hout, hg]

/-- Witness for C5 at a concrete input: dates fine, guests 0. -/
theorem C5_witness :
    (handleSubmit (some "u") (some roomA) ⟨.valid 0, .valid 86400000, 0, ""⟩
        ["spa"] [spaService] (.ok "b") (.ok ())).outcome
      = .validationError ⟨"guests", "Debe haber al menos 1 huésped"⟩
    ∧ (handleSubmit (some "u") (some roomA) ⟨.valid 0, .valid 86400000, 0, ""⟩
        ["spa"] [spaService] (.ok "b") (.ok ())).bookings = []
    ∧ (handleSubmit (some "u") (some roomA) ⟨.valid 0, .valid 86400000, 0, ""⟩
        ["spa"] [spaService] (.ok "b") (.ok ())).linkAttempt = none
    ∧ (handleSubmit (some "u") (some roomA) ⟨.valid 0, .valid 86400000, 0, ""⟩
        ["spa"] [spaService] (.ok "b") (.ok ())).links = [] :=
  C5_guests_validation "u" roomA ⟨.valid 0, .valid 86400000, 0, ""⟩
    ["spa"] [spaService] (.ok "b") (.ok ()) rfl rfl (by norm_num)

/-- C6: when validation passes, the date order is fine and both inserts
succeed, exactly one booking row is persisted — in "pendiente" (pending)
status, the stored spelling of the enum — together with exactly one link
row per selected service, each referencing the new booking id with
quantity 1. -/
theorem C6_success_rows (user : String) (r : Room) (fd : FormData)
    (sel : List String) (services : List AdditionalService) (bid : String)
    (hv : bookingSchemaIssues fd.checkIn fd.checkOut fd.guests = [])
    (hd : jsDateLe fd.checkOut.getTime fd.checkIn.getTime = false) :
    (handleSubmit (some user) (some r) fd sel services (.ok bid)
        (.ok ())).outcome = .success bid
    ∧ (handleSubmit (some user) (some r) fd sel services (.ok bid)
        (.ok ())).bookings
      = [⟨user, r.id, fd.checkIn, fd.checkOut, fd.guests,
          calculateTotal (some r) fd sel services, fd.specialRequests,
          "pendiente"⟩]
    ∧ (handleSubmit (some user) (some r) fd sel services (.ok bid)
        (.ok ())).links
      = sel.map (fun serviceId => ⟨bid, serviceId, 1⟩)
    ∧ (handleSubmit (some user) (some r) fd sel services (.ok bid)
        (.ok ())).links.length = sel.length
    ∧ ∀ l ∈ (handleSubmit (some user) (some r) fd sel services (.ok bid)
        (.ok ())).links, l.booking_id = bid ∧ l.quantity = 1 := by
  cases sel with
  | nil => simp [handleSubmit, hv, hd]
  | cons x xs =>
    refine ⟨?_, ?_, ?_, ?_, ?_⟩ <;>
      simp [handleSubmit, hv, hd]

/-- Witness for C6 at a concrete input: two selected services, healthy
store — one pending booking row and two quantity-1 link rows. -/
theorem C6_witness :
    (handleSubmit (some "u") (some roomA) ⟨.valid 0, .valid 86400000, 2, ""⟩
        ["spa", "gym"] [spaService] (.ok "b1") (.ok ())).outcome
      = .success "b1"
    ∧ (handleSubmit (some "u") (some roomA)
        ⟨.valid 0, .valid 86400000, 2, ""⟩ ["spa", "gym"] [spaService]
        (.ok "b1") (.ok ())).bookings
      = [⟨"u", roomA.id, .valid 0, .valid 86400000, 2,
          calculateTotal (some roomA) ⟨.valid 0, .valid 86400000, 2, ""⟩
            ["spa", "gym"] [spaService], "", "pendiente"⟩]
    ∧ (handleSubmit (some "u") (some roomA)
        ⟨.valid 0, .valid 86400000, 2, ""⟩ ["spa", "gym"] [spaService]
        (.ok "b1") (.ok ())).links
      = [⟨"b1", "spa", 1⟩, ⟨"b1", "gym", 1⟩] := by
  have h := C6_success_rows "u" roomA ⟨.valid 0, .valid 86400000, 2, ""⟩
    ["spa", "gym"] [spaService] "b1"
    (by norm_num [bookingSchemaIssues, DateField.present])
    (by simp [jsDateLe, DateField.getTime])
  exact ⟨h.1, h.2.1, by rw [h.2.2.1]; rfl⟩

/-- C7: if the booking insert fails, the flow stops with a single remote
error and the link insert is never attempted; if the link insert fails
after the booking insert succeeded, the persisted booking row remains (no
delete exists in the flow) with zero link rows. -/
theorem C7_failure_semantics (user : String) (r : Room) (fd : FormData)
    (sel : List String) (services : List AdditionalService)
    (msg bid : String) (servicesRes : Except String Unit)
    (hv : bookingSchemaIssues fd.checkIn fd.checkOut fd.guests = [])
    (hd : jsDateLe fd.checkOut.getTime fd.checkIn.getTime = false)
    (hsel : sel ≠ []) :
    ((handleSubmit (some user) (some r) fd sel services (.error msg)
        servicesRes).outcome = .remoteError msg
      ∧ (handleSubmit (some user) (some r) fd sel services (.error msg)
          servicesRes).bookings = []
      ∧ (handleSubmit (some user) (some r) fd sel services (.error msg)
          servicesRes).linkAttempt = none
      ∧ (handleSubmit (some user) (some r) fd sel services (.error msg)
          servicesRes).links = [])
    ∧ ((handleSubmit (some user) (some r) fd sel services (.ok bid)
        (.error msg)).outcome = .remoteError msg
      ∧ (handleSubmit (some user) (some r) fd sel services (.ok bid)
          (.error msg)).bookings
        = [⟨user, r.id, fd.checkIn, fd.checkOut, fd.guests,
            calculateTotal (some r) fd sel services, fd.specialRequests,
            "pendiente"⟩]
      ∧ (handleSubmit (some user) (some r) fd sel services (.ok bid)
          (.error msg)).links = []) := by
  cases sel with
  | nil => exact absurd rfl hsel
  | cons x xs =>
    constructor
    · simp [handleSubmit, hv, hd]
    · simp [handleSubmit, hv, hd]

/-- Witness for C7 at a concrete input: both failure shapes at once. -/
theorem C7_witness :
    ((handleSubmit (some "u") (some roomA)
        ⟨.valid 0, .valid 86400000, 2, ""⟩ ["spa"] [spaService]
        (.error "db down") (.ok ())).outcome = .remoteError "db down"
      ∧ (handleSubmit (some "u") (some roomA)
          ⟨.valid 0, .valid 86400000, 2, ""⟩ ["spa"] [spaService]
          (.error "db down") (.ok ())).bookings = []
      ∧ (handleSubmit (some "u") (some roomA)
          ⟨.valid 0, .valid 86400000, 2, ""⟩ ["spa"] [spaService]
          (.error "db down") (.ok ())).linkAttempt = none
      ∧ (handleSubmit (some "u") (some roomA)
          ⟨.valid 0, .valid 86400000, 2, ""⟩ ["spa"] [spaService]
          (.error "db down") (.ok ())).links = [])
    ∧ ((handleSubmit (some "u") (some roomA)
        ⟨.valid 0, .valid 86400000, 2, ""⟩ ["spa"] [spaService]
        (.ok "b1") (.error "db down")).outcome = .remoteError "db down"
      ∧ (handleSubmit (some "u") (some roomA)
          ⟨.valid 0, .valid 86400000, 2, ""⟩ ["spa"] [spaService]
          (.ok "b1") (.error "db down")).bookings
        = [⟨"u", roomA.id, .valid 0, .valid 86400000, 2,
            calculateTotal (some roomA)
              ⟨.valid 0, .valid 86400000, 2, ""⟩ ["spa"] [spaService],
            "", "pendiente"⟩]
      ∧ (handleSubmit (some "u") (some roomA)
          ⟨.valid 0, .valid 86400000, 2, ""⟩ ["spa"] [spaService]
          (.ok "b1") (.error "db down")).links = []) :=
  C7_failure_semantics "u" roomA ⟨.valid 0, .valid 86400000, 2, ""⟩
    ["spa"] [spaService] "db down" "b1" (.ok ())
    (by norm_num [bookingSchemaIssues, DateField.present])
    (by simp [jsDateLe, DateField.getTime])
    (by simp)

/-- C8: with a non-negative nightly rate, non-negative service prices, and
a non-negative night count, the computed total is at least nights times the
rate — the service sum can only increase it. -/
theorem C8_total_ge_nights_rate (r : Room) (tIn tOut : ℤ) (g : ℚ)
    (sr : String) (sel : List String) (services : List AdditionalService)
    (hr : 0 ≤ r.price_per_night)
    (hs : ∀ s ∈ services, 0 ≤ s.price)
    (hn : 0 ≤ nightsBetween tIn tOut) :
    ∃ t, calculateTotal (some r) ⟨.valid tIn, .valid tOut, g, sr⟩ sel services
        = some t
      ∧ (nightsBetween tIn tOut : ℚ) * r.price_per_night ≤ t := by
  refine ⟨_, calculateTotal_valid r tIn tOut g sr sel services, ?_⟩
  have h2 : (0 : ℚ) ≤ (sel.map (lookupPrice services)).sum := by
    refine List.sum_nonneg ?_
    intro x hx
    obtain ⟨serviceId, _, rfl⟩ := List.mem_map.mp hx
    exact lookupPrice_nonneg services hs serviceId
  linarith

/-- Witness for C8 at a concrete input: three nights at 100 with a 50
service — the total is at least 300. -/
theorem C8_witness :
    ∃ t, calculateTotal (some roomA)
        ⟨.valid 0, .valid (3 * 86400000), 2, ""⟩ ["spa"] [spaService]
        = some t
      ∧ (nightsBetween 0 (3 * 86400000) : ℚ) * roomA.price_per_night ≤ t :=
  C8_total_ge_nights_rate roomA 0 (3 * 86400000) 2 "" ["spa"] [spaService]
    (by norm_num [roomA])
    (by
      intro s hs
      simp only [List.mem_singleton] at hs
      subst hs
      norm_num [spaService])
    (by norm_num [nightsBetween, msPerDay])

/-- Toggling preserves freedom from duplicates. -/
theorem handleServiceToggle_nodup (serviceId : String) (l : List String)
    (h : l.Nodup) : (handleServiceToggle serviceId l).Nodup := by
  unfold handleServiceToggle
  by_cases hc : l.contains serviceId
  · simp only [hc, if_true]
    exact h.filter _
  · rw [Bool.not_eq_true] at hc
    simp only [hc, Bool.false_eq_true, if_false]
    rw [List.nodup_append]
    refine ⟨h, List.nodup_singleton _, ?_⟩
    intro x hx hx2
    rw [List.mem_singleton] at hx2
    subst hx2
    rw [← List.elem_iff] at hx
    exact absurd hx (by simp [List.contains, hc] at hc ⊢; simp [hc])

/-- Any fold of toggles starting from a duplicate-free accumulator stays
duplicate-free. -/
theorem foldl_toggle_nodup (ids : List String) (acc : List String)
    (h : acc.Nodup) :
    (ids.foldl (fun sel serviceId => handleServiceToggle serviceId sel)
      acc).Nodup := by
  induction ids generalizing acc with
  | nil => simpa
  | cons x xs ih => exact ih _ (handleServiceToggle_nodup x acc h)

/-- Removing one occurrence-free filter and re-appending the element is a
permutation of the original duplicate-free list. -/
theorem filter_append_self_perm (serviceId : String) (l : List String)
    (hnd : l.Nodup) (hm : serviceId ∈ l) :
    ((l.filter (fun x => x != serviceId)) ++ [serviceId]).Perm l := by
  induction l with
  | nil => cases hm
  | cons x xs ih =>
    by_cases hx : x = serviceId
    · subst hx
      have hnotin : x ∉ xs := (List.nodup_cons.mp hnd).1
      have hfilter : xs.filter (fun y => y != x) = xs := by
        refine List.filter_eq_self.mpr ?_
        intro y hy
        simp only [bne_iff_ne, ne_eq, decide_eq_true_eq]
        exact fun hyx => hnotin (hyx ▸ hy)
      simp only [List.filter_cons, bne_self_eq_false, Bool.false_eq_true,
        if_false, hfilter]
      exact List.perm_append_singleton x xs
    · have hm2 : serviceId ∈ xs := by
        rcases List.mem_cons.mp hm with h | h
        · exact absurd h.symm hx
        · exact h
      have hnd2 := (List.nodup_cons.mp hnd).2
      have hxb : (x != serviceId) = true := by
        simp [bne_iff_ne]
        exact hx
      simp only [List.filter_cons, hxb, if_true, List.cons_append]
      exact (ih hnd2 hm2).cons x

/-- A selected id that no active service matches contributes nothing to the
fold, wherever it sits in the selection. -/
theorem calculateTotal_unknown (r : Room) (fd : FormData)
    (l1 l2 : List String) (serviceId : String)
    (services : List AdditionalService)
    (hnf : findService services serviceId = none) :
    calculateTotal (some r) fd (l1 ++ serviceId :: l2) services
      = calculateTotal (some r) fd (l1 ++ l2) services := by
  unfold calculateTotal
  cases hb : (fd.checkIn.present && fd.checkOut.present)
  · rfl
  · cases hci : fd.checkIn.getTime <;> cases hco : fd.checkOut.getTime
    · rfl
    · rfl
    · rfl
    · simp only [if_true]
      congr 1
      rw [foldl_services_eq services (l1 ++ serviceId :: l2),
        foldl_services_eq services (l1 ++ l2)]
      simp only [List.map_append, List.sum_append, List.map_cons,
        List.sum_cons, lookupPrice, hnf]
      ring

/-- C9: a selected id absent from the fetched active-services list adds
nothing to the total, yet a successful submission still links it (quantity
1) to the new booking; concretely, with rate 100, one night and a selected
inactive 150-priced service, the stored total is 100 while the linked
services are really worth 150 — the persisted total undercounts the linked
services. -/
theorem C9_unknown_service (r : Room) (fd : FormData) (l1 l2 : List String)
    (serviceId : String) (services : List AdditionalService)
    (user bid : String)
    (hnf : findService services serviceId = none)
    (hv : bookingSchemaIssues fd.checkIn fd.checkOut fd.guests = [])
    (hd : jsDateLe fd.checkOut.getTime fd.checkIn.getTime = false) :
    calculateTotal (some r) fd (l1 ++ serviceId :: l2) services
      = calculateTotal (some r) fd (l1 ++ l2) services
    ∧ (⟨bid, serviceId, 1⟩ : BookingServiceRow)
        ∈ (handleSubmit (some user) (some r) fd (l1 ++ serviceId :: l2)
            services (.ok bid) (.ok ())).links
    ∧ ((handleSubmit (some "u") (some roomA)
          ⟨.valid 0, .valid msPerDay, 2, ""⟩ ["spa-premium"] []
          (.ok "b1") (.ok ())).bookings.map (fun b => b.total_amount)
        = [some 100]
      ∧ (handleSubmit (some "u") (some roomA)
          ⟨.valid 0, .valid msPerDay, 2, ""⟩ ["spa-premium"] []
          (.ok "b1") (.ok ())).links = [⟨"b1", "spa-premium", 1⟩]
      ∧ (100 : ℚ) < inactiveSpa.price) := by
  refine ⟨calculateTotal_unknown r fd l1 l2 serviceId services hnf,
    ?_, ?_, ?_, ?_⟩
  · simp only [handleSubmit, hv, hd, Bool.false_eq_true, if_false]
    rw [if_pos (by simp : (l1 ++ serviceId :: l2).length > 0)]
    exact List.mem_map_of_mem _
      (List.mem_append_right _ (List.mem_cons_self _ _))
  · norm_num [handleSubmit, bookingSchemaIssues, DateField.present,
      jsDateLe, DateField.getTime, calculateTotal, nightsBetween,
      msPerDay, roomA, findService]
  · norm_num [handleSubmit, bookingSchemaIssues, DateField.present,
      jsDateLe, DateField.getTime, msPerDay]
  · norm_num [inactiveSpa]

/-- Witness for C9 at a concrete input: the unknown id "x" with an empty
active list and a one-night stay. -/
theorem C9_witness :
    calculateTotal (some roomA) ⟨.valid 0, .valid msPerDay, 2, ""⟩
      (["spa"] ++ "x" :: []) [spaService]
      = calculateTotal (some roomA) ⟨.valid 0, .valid msPerDay, 2, ""⟩
        (["spa"] ++ []) [spaService]
    ∧ (⟨"b1", "x", 1⟩ : BookingServiceRow)
        ∈ (handleSubmit (some "u") (some roomA)
            ⟨.valid 0, .valid msPerDay, 2, ""⟩ (["spa"] ++ "x" :: [])
            [spaService] (.ok "b1") (.ok ())).links :=
  ⟨(C9_unknown_service roomA ⟨.valid 0, .valid msPerDay, 2, ""⟩
      ["spa"] [] "x" [spaService] "u" "b1"
      (by decide)
      (by norm_num [bookingSchemaIssues, DateField.present])
      (by simp [jsDateLe, DateField.getTime, msPerDay])).1,
   (C9_unknown_service roomA ⟨.valid 0, .valid msPerDay, 2, ""⟩
      ["spa"] [] "x" [spaService] "u" "b1"
      (by decide)
      (by norm_num [bookingSchemaIssues, DateField.present])
      (by simp [jsDateLe, DateField.getTime, msPerDay])).2.1⟩

/-- C10: the claim says toggling the same id twice restores the previous
selection.  Counterexample: the selection ["a", "b"] is reachable from the
empty selection by toggling "a" then "b"; toggling "a" twice then yields
["b", "a"] — the same set, but not the previous list. -/
theorem C10_counterexample :
    handleServiceToggle "b" (handleServiceToggle "a" []) = ["a", "b"]
    ∧ handleServiceToggle "a" (handleServiceToggle "a" ["a", "b"])
      = ["b", "a"]
    ∧ (["b", "a"] : List String) ≠ ["a", "b"] := by
  refine ⟨by decide, by decide, by decide⟩

/-- C10 (amended): every sequence of toggles from the empty selection is
duplicate-free; toggling a present id removes it (and it is then absent),
toggling an absent id appends it once; toggling the same id twice yields a
permutation of the previous duplicate-free selection — exactly the
previous list when the id was absent, the same elements in a possibly
different order when it was present. -/
theorem C10_toggle_invariants (ids : List String) (l : List String)
    (serviceId : String) (hnodup : l.Nodup) :
    (ids.foldl (fun sel serviceId => handleServiceToggle serviceId sel)
        []).Nodup
    ∧ (serviceId ∈ l →
        handleServiceToggle serviceId l
          = l.filter (fun x => x != serviceId)
        ∧ serviceId ∉ handleServiceToggle serviceId l)
    ∧ (serviceId ∉ l →
        handleServiceToggle serviceId l = l ++ [serviceId])
    ∧ (handleServiceToggle serviceId
        (handleServiceToggle serviceId l)).Perm l
    ∧ (serviceId ∉ l →
        handleServiceToggle serviceId (handleServiceToggle serviceId l)
          = l) := by
  have htoggle_mem : serviceId ∈ l →
      handleServiceToggle serviceId l
        = l.filter (fun x => x != serviceId) := by
    intro hm
    unfold handleServiceToggle
    rw [if_pos (by rw [List.elem_iff]; exact hm)]
  have htoggle_notmem : ∀ m : List String, serviceId ∉ m →
      handleServiceToggle serviceId m = m ++ [serviceId] := by
    intro m hm
    unfold handleServiceToggle
    rw [if_neg (by rw [List.elem_iff]; exact hm)]
  have hnotin_filter : serviceId ∉ l.filter (fun x => x != serviceId) := by
    intro hmem
    have := (List.mem_filter.mp hmem).2
    simp at this
  have hfilter_self : ∀ m : List String, serviceId ∉ m →
      m.filter (fun x => x != serviceId) = m := by
    intro m hm
    refine List.filter_eq_self.mpr ?_
    intro y hy
    simp only [bne_iff_ne, ne_eq, decide_eq_true_eq]
    exact fun hys => hm (hys ▸ hy)
  have htwice_notmem : serviceId ∉ l →
      handleServiceToggle serviceId (handleServiceToggle serviceId l)
        = l := by
    intro hm
    rw [htoggle_notmem l hm]
    have hmem2 : serviceId ∈ l ++ [serviceId] :=
      List.mem_append_right _ (List.mem_cons_self _ _)
    unfold handleServiceToggle
    rw [if_pos (by rw [List.elem_iff]; exact hmem2)]
    rw [List.filter_append, hfilter_self l hm]
    simp
  refine ⟨foldl_toggle_nodup ids [] List.nodup_nil, ?_, htoggle_notmem l,
    ?_, htwice_notmem⟩
  · intro hm
    exact ⟨htoggle_mem hm, by rw [htoggle_mem hm]; exact hnotin_filter⟩
  · by_cases hm : serviceId ∈ l
    · rw [htoggle_mem hm]
      rw [htoggle_notmem _ hnotin_filter]
      exact filter_append_self_perm serviceId l hnodup hm
    · rw [htwice_notmem hm]

/-- Witness for C10 at concrete inputs: toggles from the empty selection
stay duplicate-free, and toggling an absent id twice restores the list. -/
theorem C10_witness :
    ((["a", "b", "a"].foldl
        (fun sel serviceId => handleServiceToggle serviceId sel) []).Nodup)
    ∧ handleServiceToggle "c" ["a", "b"] = ["a", "b"] ++ ["c"]
    ∧ (handleServiceToggle "c"
        (handleServiceToggle "c" ["a", "b"])).Perm ["a", "b"] :=
  ⟨(C10_toggle_invariants ["a", "b", "a"] ["a", "b"] "c" (by decide)).1,
   (C10_toggle_invariants ["a", "b", "a"] ["a", "b"] "c" (by decide)).2.2.1
     (by decide),
   (C10_toggle_invariants ["a", "b", "a"] ["a", "b"] "c" (by decide)).2.2.2.1⟩

end Reservas
